import Mathlib

set_option maxRecDepth 4000

/-!
Verification of the module-resolution engine embedded in the pyqtdeploy
runtime library: the `qrcimporter` of `builder/lib/pdytools_module.cpp` and
the `mfsimporter` of `builder/lib/mfsimport.cpp`.  Strings are modelled as
lists of characters so that every definition evaluates inside the kernel;
the backing store (Qt resource filesystem) is modelled as a pair of
predicates answering `QFileInfo::isFile` and `QFileInfo::isDir` queries.
-/

namespace PdyTools

/-- Strings, modelled as character lists (a `QString` is a sequence of
`QChar`s). -/
abbrev Str := List Char

/-- Model of `QString::split(QChar c)` with the default `KeepEmptyParts` behaviour:
splitting the empty string yields one empty part. -/
def splitOnChar (c : Char) : Str → List Str
  | [] => [[]]
  | x :: xs =>
    match splitOnChar c xs with
    | [] => [[x]]
    | p :: ps => if x = c then [] :: p :: ps else (x :: p) :: ps

/-- Model of `QStringList::last()` on a split result (split never returns an empty
list, so the `[]` case is unreachable; an empty string is returned there). -/
def lastPart : List Str → Str
  | [] => []
  | [p] => p
  | _ :: p :: ps => lastPart (p :: ps)

/-- Model of `QDir::filePath(fileName)` for a relative `fileName`: the directory path
followed by a separator and the file name. -/
def dirFilePath (d : Str) (fileName : Str) : Str := d ++ '/' :: fileName

/-- The read-only backing store: answers the `QFileInfo::isFile` and
`QFileInfo::isDir` probes made by the resolver. -/
structure FS where
  isFile : Str → Bool
  isDir : Str → Bool

/-- The `QrcImporter` object of pdytools_module.cpp: the directory path the
importer handles (normalized to end with a separator) and the component
parts of that path. -/
structure QrcImporter where
  path : Str
  path_parts : List Str
deriving DecidableEq

/-- The `MfsImporter` object of mfsimport.cpp: only the directory path the
importer handles. -/
structure MfsImporter where
  path : Str
deriving DecidableEq

/-- The build platform: the extension-module suffix (".pyd" on Windows,
".so" elsewhere) and whether the Darwin-only PlugIns/Frameworks probes are
compiled in (`Q_OS_DARWIN`). -/
structure Platform where
  extSuffix : Str
  isDarwin : Bool

/-- The `ModuleType` enumeration returned by `find_module()`. -/
inductive ModuleType where
  | ModuleNotFound
  | ModuleIsModule
  | ModuleIsPackage
  | ModuleIsNamespace
  | ModuleIsAdjacentExtensionModule
deriving DecidableEq

/-- The outcome of `find_module()`: its return value together with the
`pathname` and `filename` output parameters (empty on the early
scope-mismatch return, matching the callers' freshly constructed empty
`QString`s). -/
structure FindResult where
  type : ModuleType
  pathname : Str
  filename : Str
deriving DecidableEq

/-- The adjacent-extension-module probe sequence of
`find_module()` (pdytools_module.cpp lines 1125-1149) given the executable
directory: on Darwin first `../PlugIns/`, then `../Frameworks/`, then the
executable directory itself; elsewhere only the executable directory. -/
def find_adjacent (plat : Platform) (fs : FS) (exec_dir : Str)
    (em_name : Str) : Option Str :=
  if plat.isDarwin then
    let f1 := dirFilePath exec_dir ("../PlugIns/".data ++ em_name)
    if fs.isFile f1 then some f1
    else
      let f2 := dirFilePath exec_dir ("../Frameworks/".data ++ em_name)
      if fs.isFile f2 then some f2
      else
        let f3 := dirFilePath exec_dir em_name
        if fs.isFile f3 then some f3 else none
  else
    let f3 := dirFilePath exec_dir em_name
    if fs.isFile f3 then some f3 else none

/-- The guard `if (executable_dir)` around the adjacent-extension probes:
when the executable directory has not been initialised the probes are
skipped entirely. -/
def adjacentOf (plat : Platform) (fs : FS) (executable_dir : Option Str)
    (em_name : Str) : Option Str :=
  match executable_dir with
  | none => none
  | some d => find_adjacent plat fs d em_name

/-- Model of `find_module()` of pdytools_module.cpp (lines 1099-1158): split the
FQMN, reject it if the parent components differ from the importer's
`path_parts`, then probe in order for an ordinary module (`.pyo` file), a
package (`/__init__.pyo` file), an adjacent extension module, and a
namespace directory. -/
def find_module (plat : Platform) (fs : FS) (executable_dir : Option Str)
    (self : QrcImporter) (fqmn : Str) : FindResult :=
  let fqmn_parts := splitOnChar '.' fqmn
  let fqmn_last := lastPart fqmn_parts
  let fqmn_parents := fqmn_parts.dropLast
  if self.path_parts ≠ fqmn_parents then
    ⟨.ModuleNotFound, [], []⟩
  else
    let pathname := self.path ++ fqmn_last
    let mod_file := pathname ++ ".pyo".data
    if fs.isFile mod_file then ⟨.ModuleIsModule, pathname, mod_file⟩
    else
      let init_file := pathname ++ "/__init__.pyo".data
      if fs.isFile init_file then ⟨.ModuleIsPackage, pathname, init_file⟩
      else
        match adjacentOf plat fs executable_dir (fqmn ++ plat.extSuffix) with
        | some em_file => ⟨.ModuleIsAdjacentExtensionModule, pathname, em_file⟩
        | none =>
          if fs.isDir pathname then ⟨.ModuleIsNamespace, pathname, pathname⟩
          else ⟨.ModuleNotFound, pathname, pathname⟩

/-- Model of `find_module()` of mfsimport.cpp (lines 471-496): the candidate
pathname is the importer's path, a separator and the last dot-separated
component of the FQMN; then the `.pyf` file, `/__init__.pyf` file and bare
directory are probed in order.  There is no parent-component check and no
adjacent-extension probe. -/
def mfs_find_module (fs : FS) (self : MfsImporter) (fqmn : Str) :
    FindResult :=
  let pathname := self.path ++ "/".data ++ lastPart (splitOnChar '.' fqmn)
  if fs.isFile (pathname ++ ".pyf".data) then
    ⟨.ModuleIsModule, pathname, pathname ++ ".pyf".data⟩
  else if fs.isFile (pathname ++ "/__init__.pyf".data) then
    ⟨.ModuleIsPackage, pathname, pathname ++ "/__init__.pyf".data⟩
  else if fs.isDir pathname then
    ⟨.ModuleIsNamespace, pathname, pathname⟩
  else
    ⟨.ModuleNotFound, pathname, pathname⟩

/-- A single backing-store query made by the resolver: a
`QFileInfo::isFile` or `QFileInfo::isDir` probe on a path. -/
inductive Probe where
  | file (p : Str) : Probe
  | dir (p : Str) : Probe
deriving DecidableEq

/-- The probe sequence `find_adjacent` instrumented with the ordered list of backing-store
probes it performs. -/
def find_adjacentT (plat : Platform) (fs : FS) (exec_dir : Str)
    (em_name : Str) : Option Str × List Probe :=
  if plat.isDarwin then
    let f1 := dirFilePath exec_dir ("../PlugIns/".data ++ em_name)
    if fs.isFile f1 then (some f1, [.file f1])
    else
      let f2 := dirFilePath exec_dir ("../Frameworks/".data ++ em_name)
      if fs.isFile f2 then (some f2, [.file f1, .file f2])
      else
        let f3 := dirFilePath exec_dir em_name
        if fs.isFile f3 then (some f3, [.file f1, .file f2, .file f3])
        else (none, [.file f1, .file f2, .file f3])
  else
    let f3 := dirFilePath exec_dir em_name
    if fs.isFile f3 then (some f3, [.file f3]) else (none, [.file f3])

/-- The guard `adjacentOf` instrumented with its probe list (no probe at all when the
executable directory is not initialised). -/
def adjacentOfT (plat : Platform) (fs : FS) (executable_dir : Option Str)
    (em_name : Str) : Option Str × List Probe :=
  match executable_dir with
  | none => (none, [])
  | some d => find_adjacentT plat fs d em_name

/-- Model of `find_module()` of pdytools_module.cpp instrumented with the ordered
list of backing-store probes it performs; the result component follows the
source exactly as in `find_module`. -/
def find_moduleT (plat : Platform) (fs : FS) (executable_dir : Option Str)
    (self : QrcImporter) (fqmn : Str) : FindResult × List Probe :=
  let fqmn_parts := splitOnChar '.' fqmn
  let fqmn_last := lastPart fqmn_parts
  let fqmn_parents := fqmn_parts.dropLast
  if self.path_parts ≠ fqmn_parents then
    (⟨.ModuleNotFound, [], []⟩, [])
  else
    let pathname := self.path ++ fqmn_last
    let mod_file := pathname ++ ".pyo".data
    if fs.isFile mod_file then
      (⟨.ModuleIsModule, pathname, mod_file⟩, [.file mod_file])
    else
      let init_file := pathname ++ "/__init__.pyo".data
      if fs.isFile init_file then
        (⟨.ModuleIsPackage, pathname, init_file⟩,
          [.file mod_file, .file init_file])
      else
        match adjacentOfT plat fs executable_dir (fqmn ++ plat.extSuffix) with
        | (some em_file, tr) =>
          (⟨.ModuleIsAdjacentExtensionModule, pathname, em_file⟩,
            [.file mod_file, .file init_file] ++ tr)
        | (none, tr) =>
          if fs.isDir pathname then
            (⟨.ModuleIsNamespace, pathname, pathname⟩,
              [.file mod_file, .file init_file] ++ tr ++ [.dir pathname])
          else
            (⟨.ModuleNotFound, pathname, pathname⟩,
              [.file mod_file, .file init_file] ++ tr ++ [.dir pathname])

/-- Model of `find_module()` of pdytools_module.cpp in explicit state-passing form:
the importer object is threaded through the call and handed back at every
exit point, making it visible that the function never assigns to the
importer's fields. -/
def qrc_resolve_st (plat : Platform) (fs : FS) (executable_dir : Option Str)
    (self : QrcImporter) (fqmn : Str) : FindResult × QrcImporter :=
  let fqmn_parts := splitOnChar '.' fqmn
  let fqmn_last := lastPart fqmn_parts
  let fqmn_parents := fqmn_parts.dropLast
  if self.path_parts ≠ fqmn_parents then
    (⟨.ModuleNotFound, [], []⟩, self)
  else
    let pathname := self.path ++ fqmn_last
    let mod_file := pathname ++ ".pyo".data
    if fs.isFile mod_file then (⟨.ModuleIsModule, pathname, mod_file⟩, self)
    else
      let init_file := pathname ++ "/__init__.pyo".data
      if fs.isFile init_file then
        (⟨.ModuleIsPackage, pathname, init_file⟩, self)
      else
        match adjacentOf plat fs executable_dir (fqmn ++ plat.extSuffix) with
        | some em_file =>
          (⟨.ModuleIsAdjacentExtensionModule, pathname, em_file⟩, self)
        | none =>
          if fs.isDir pathname then
            (⟨.ModuleIsNamespace, pathname, pathname⟩, self)
          else (⟨.ModuleNotFound, pathname, pathname⟩, self)

/-- Model of `find_module()` of mfsimport.cpp in explicit state-passing
form: the importer object is threaded through the call and handed back at
every exit point, making it visible that the function never assigns to the
importer's field. -/
def mfs_resolve_st (fs : FS) (self : MfsImporter) (fqmn : Str) :
    FindResult × MfsImporter :=
  let pathname := self.path ++ "/".data ++ lastPart (splitOnChar '.' fqmn)
  if fs.isFile (pathname ++ ".pyf".data) then
    (⟨.ModuleIsModule, pathname, pathname ++ ".pyf".data⟩, self)
  else if fs.isFile (pathname ++ "/__init__.pyf".data) then
    (⟨.ModuleIsPackage, pathname, pathname ++ "/__init__.pyf".data⟩, self)
  else if fs.isDir pathname then
    (⟨.ModuleIsNamespace, pathname, pathname⟩, self)
  else
    (⟨.ModuleNotFound, pathname, pathname⟩, self)

/-- The observable outcome of a `find_loader()` call (Python 3 path):
`(self, [])` for a module, package or adjacent extension; `(None,
[pathname])` for a namespace portion; a loader delegated from
`importlib.find_loader`; or `(None, [])`. -/
inductive FLResult where
  | selfLoader : FLResult
  | namespacePath (p : Str) : FLResult
  | delegated (inner : FLResult) : FLResult
  | noLoader : FLResult
deriving DecidableEq

/-- Whether a `find_loader` outcome was produced by delegation to the
external `importlib.find_loader`. -/
def FLResult.isDelegated : FLResult → Bool
  | .delegated _ => true
  | _ => false

/-- Model of `qrcimporter_find_loader()` of pdytools_module.cpp (lines 481-555) with
the `static bool recursing` delegation guard made explicit.  The external
`importlib.find_loader` is modelled in its worst observable shape: it
re-enters this very resolver with a name chosen by `reenter`, under the
guard flag set, and yields whatever that second entry produces.  The `Nat`
argument is call-depth fuel; `none` means the fuel was exhausted. -/
def qrcimporter_find_loader (plat : Platform) (fs : FS) (ed : Option Str)
    (self : QrcImporter) (reenter : Str → Str) :
    Nat → Bool → Str → Option FLResult
  | 0, _, _ => none
  | fuel + 1, recursing, fqmn =>
    let r := find_module plat fs ed self fqmn
    match r.type with
    | .ModuleIsModule => some .selfLoader
    | .ModuleIsPackage => some .selfLoader
    | .ModuleIsAdjacentExtensionModule => some .selfLoader
    | .ModuleIsNamespace => some (.namespacePath r.pathname)
    | .ModuleNotFound =>
      if fqmn.contains '.' && !recursing then
        match qrcimporter_find_loader plat fs ed self reenter fuel true
            (reenter fqmn) with
        | some inner => some (.delegated inner)
        | none => none
      else some .noLoader

/-- Model of `mfsimporter_find_loader()` of mfsimport.cpp (lines 234-308), with the
same explicit delegation guard and re-entering external resolver. -/
def mfsimporter_find_loader (fs : FS) (self : MfsImporter)
    (reenter : Str → Str) : Nat → Bool → Str → Option FLResult
  | 0, _, _ => none
  | fuel + 1, recursing, fqmn =>
    let r := mfs_find_module fs self fqmn
    match r.type with
    | .ModuleIsModule => some .selfLoader
    | .ModuleIsPackage => some .selfLoader
    | .ModuleIsAdjacentExtensionModule => some .selfLoader
    | .ModuleIsNamespace => some (.namespacePath r.pathname)
    | .ModuleNotFound =>
      if fqmn.contains '.' && !recursing then
        match mfsimporter_find_loader fs self reenter fuel true
            (reenter fqmn) with
        | some inner => some (.delegated inner)
        | none => none
      else some .noLoader

/-- The observable outcome of a `load_module()` call: delegation of an
adjacent extension module to `imp.load_module`, execution of a decoded code
object (with the `__path__` list installed in the module dictionary
beforehand, if any), or an `ImportError`. -/
inductive LoadResult where
  | extensionLoad (filename : Str) : LoadResult
  | executed (path_list : Option (List Str)) (filename : Str) : LoadResult
  | importError : LoadResult
deriving DecidableEq

/-- Model of `qrcimporter_load_module()` of pdytools_module.cpp (lines 598-757,
Python 3 path): adjacent extension modules are handed to the `imp` module;
for anything that is neither a module nor a package an `ImportError` is
raised; for a package `__path__ = [pathname]` is installed in the module
dictionary before the code object is executed, and for an ordinary module
no `__path__` is installed. -/
def qrcimporter_load_module (plat : Platform) (fs : FS) (ed : Option Str)
    (self : QrcImporter) (fqmn : Str) : LoadResult :=
  let r := find_module plat fs ed self fqmn
  match r.type with
  | .ModuleIsAdjacentExtensionModule => .extensionLoad r.filename
  | .ModuleIsModule => .executed none r.filename
  | .ModuleIsPackage => .executed (some [r.pathname]) r.filename
  | .ModuleIsNamespace => .importError
  | .ModuleNotFound => .importError

/-- Model of `mfsimporter_load_module()` of mfsimport.cpp (lines 351-466, Python 3
path): only modules and packages are loadable; a package gets
`__path__ = [pathname]` installed before execution. -/
def mfsimporter_load_module (fs : FS) (self : MfsImporter) (fqmn : Str) :
    LoadResult :=
  let r := mfs_find_module fs self fqmn
  match r.type with
  | .ModuleIsModule => .executed none r.filename
  | .ModuleIsPackage => .executed (some [r.pathname]) r.filename
  | _ => .importError

/-- The `QrcResource` object of pdytools_module.cpp: a `QFile` over one
resource, with its open flag, contents and read position. -/
structure QrcResource where
  isOpen : Bool
  data : List Nat
  pos : Nat
deriving DecidableEq

/-- The error vocabulary of the resource-handle interface: the invalid-state
condition raised on misuse of a closed handle. -/
inductive RErr where
  | invalidState : RErr
deriving DecidableEq

/-- The outcome of a `read()` call on a resource handle. -/
inductive ReadResult where
  | ok (data : List Nat) : ReadResult
  | error (e : RErr) : ReadResult
deriving DecidableEq

/-- Model of `QFile::readAll()`: on an open file, everything from the current
position to the end; on a closed file, an empty byte array (Qt only warns
on the closed-device misuse). -/
def qfile_readAll (r : QrcResource) : List Nat × QrcResource :=
  if r.isOpen then
    (r.data.drop r.pos, { r with pos := r.data.length })
  else ([], r)

/-- Model of `QFile::read(maxSize)`: on an open file, up to `maxSize` bytes from the
current position; on a closed file, an empty byte array. -/
def qfile_read (r : QrcResource) (maxSize : Nat) : List Nat × QrcResource :=
  if r.isOpen then
    let d := (r.data.drop r.pos).take maxSize
    (d, { r with pos := r.pos + d.length })
  else ([], r)

/-- Model of `qrcresource_read()` of pdytools_module.cpp (lines 979-995): a negative
(or omitted) size reads everything via `readAll()`, otherwise `read(size)`;
the resulting byte array is returned as a bytes object.  No open-state
check is performed. -/
def qrcresource_read (r : QrcResource) (size : Int) :
    ReadResult × QrcResource :=
  let p := if size < 0 then qfile_readAll r else qfile_read r size.toNat
  (.ok p.1, p.2)

/-- Model of `qrcresource_close()` of pdytools_module.cpp (lines 960-968): closes
the file if it is open; closing an already closed handle is a no-op. -/
def qrcresource_close (r : QrcResource) : QrcResource :=
  if r.isOpen then { r with isOpen := false } else r

/-- The outcome of a `resource_path()` call on the resource reader. -/
inductive PathResult where
  | ok (p : Str) : PathResult
  | fileNotFoundError : PathResult
deriving DecidableEq

/-- Model of `qrcreader_resource_path()` of pdytools_module.cpp (lines 905-910):
unconditionally raises `FileNotFoundError` — resources in the embedded
tree have no on-disk path. -/
def qrcreader_resource_path (_arg : Str) : PathResult :=
  .fileNotFoundError

end PdyTools

namespace PdyTools

/-- Claim C1: for an FQMN whose parent components match the importer's
scope, when both the `<leaf>.pyo` file and the `<leaf>/__init__.pyo` file
exist in the backing store, `find_module` of the qrc importer returns
`ModuleIsModule` with filename `<root><leaf>.pyo`; and likewise for the mfs
importer with the `.pyf` suffix (ordinary module precedes package). -/
theorem module_beats_package (plat : Platform) (fs : FS)
    (ed : Option Str) (self : QrcImporter) (mself : MfsImporter)
    (fqmn : Str) :
    (self.path_parts = (splitOnChar '.' fqmn).dropLast →
      fs.isFile (self.path ++ lastPart (splitOnChar '.' fqmn) ++
        ".pyo".data) = true →
      fs.isFile (self.path ++ lastPart (splitOnChar '.' fqmn) ++
        "/__init__.pyo".data) = true →
      find_module plat fs ed self fqmn =
        ⟨.ModuleIsModule, self.path ++ lastPart (splitOnChar '.' fqmn),
          self.path ++ lastPart (splitOnChar '.' fqmn) ++ ".pyo".data⟩) ∧
    (fs.isFile (mself.path ++ "/".data ++ lastPart (splitOnChar '.' fqmn) ++
        ".pyf".data) = true →
      fs.isFile (mself.path ++ "/".data ++ lastPart (splitOnChar '.' fqmn) ++
        "/__init__.pyf".data) = true →
      mfs_find_module fs mself fqmn =
        ⟨.ModuleIsModule,
          mself.path ++ "/".data ++ lastPart (splitOnChar '.' fqmn),
          mself.path ++ "/".data ++ lastPart (splitOnChar '.' fqmn) ++
            ".pyf".data⟩) := by
  constructor
  · intro hscope hpyo _
    simp at hpyo
    simp [find_module, hscope, hpyo]
  · intro hpyf _
    simp at hpyf
    simp [mfs_find_module, hpyf]

/-- Witness for C1 at a concrete store holding both `:/m.pyo` and
`:/m/__init__.pyo` (and both mfs counterparts under `/app`). -/
theorem module_beats_package_witness :
    ((⟨":/".data, []⟩ : QrcImporter).path_parts =
      (splitOnChar '.' "m".data).dropLast) ∧
    find_module ⟨".so".data, false⟩
      ⟨fun s => s == ":/m.pyo".data || s == ":/m/__init__.pyo".data,
        fun _ => false⟩ none ⟨":/".data, []⟩ "m".data =
      ⟨.ModuleIsModule, (⟨":/".data, []⟩ : QrcImporter).path ++
          lastPart (splitOnChar '.' "m".data),
        (⟨":/".data, []⟩ : QrcImporter).path ++
          lastPart (splitOnChar '.' "m".data) ++ ".pyo".data⟩ ∧
    mfs_find_module
      ⟨fun s => s == "/app/m.pyf".data || s == "/app/m/__init__.pyf".data,
        fun _ => false⟩ ⟨"/app".data⟩ "m".data =
      ⟨.ModuleIsModule,
        (⟨"/app".data⟩ : MfsImporter).path ++ "/".data ++
          lastPart (splitOnChar '.' "m".data),
        (⟨"/app".data⟩ : MfsImporter).path ++ "/".data ++
          lastPart (splitOnChar '.' "m".data) ++ ".pyf".data⟩ :=
  ⟨by decide,
    (module_beats_package ⟨".so".data, false⟩
      ⟨fun s => s == ":/m.pyo".data || s == ":/m/__init__.pyo".data,
        fun _ => false⟩ none ⟨":/".data, []⟩ ⟨"/app".data⟩ "m".data).1
      (by decide) (by decide) (by decide),
    (module_beats_package ⟨".so".data, false⟩
      ⟨fun s => s == "/app/m.pyf".data || s == "/app/m/__init__.pyf".data,
        fun _ => false⟩ none ⟨":/".data, []⟩ ⟨"/app".data⟩ "m".data).2
      (by decide) (by decide)⟩

/-- Claim C2: when a top-level `find_loader` call fails and delegates to the
external resolver, a re-entering external resolver (modelled as re-entering
with an arbitrary related name while the `recursing` guard is set) cannot
cause a second delegation: with fuel for just one extra resolution step the
lookup always terminates (`isSome`), and whenever the outcome is a
delegated one its inner result was produced strictly locally (it is never
itself delegated).  This holds for the qrc importer and the mfs importer
alike. -/
theorem delegation_guard_terminates (plat : Platform) (fs : FS)
    (ed : Option Str) (self : QrcImporter) (mself : MfsImporter)
    (reenter : Str → Str) (fqmn : Str) :
    ((qrcimporter_find_loader plat fs ed self reenter 2 false fqmn).isSome =
        true ∧
      ∀ inner, qrcimporter_find_loader plat fs ed self reenter 2 false fqmn =
        some (.delegated inner) → inner.isDelegated = false) ∧
    ((mfsimporter_find_loader fs mself reenter 2 false fqmn).isSome = true ∧
      ∀ inner, mfsimporter_find_loader fs mself reenter 2 false fqmn =
        some (.delegated inner) → inner.isDelegated = false) := by
  constructor
  · rw [show (2 : Nat) = 0 + 1 + 1 from rfl]
    simp only [qrcimporter_find_loader]
    cases htype : (find_module plat fs ed self fqmn).type <;>
      cases htype2 : (find_module plat fs ed self (reenter fqmn)).type <;>
        cases hc : fqmn.contains '.' <;>
          simp [htype, htype2, hc, FLResult.isDelegated]
  · rw [show (2 : Nat) = 0 + 1 + 1 from rfl]
    simp only [mfsimporter_find_loader]
    cases htype : (mfs_find_module fs mself fqmn).type <;>
      cases htype2 : (mfs_find_module fs mself (reenter fqmn)).type <;>
        cases hc : fqmn.contains '.' <;>
          simp [htype, htype2, hc, FLResult.isDelegated]

/-- Witness for C2: over an empty backing store, looking up `a.b` with an
external resolver that always re-enters with the same name yields exactly
one delegation whose inner outcome is the local `(None, [])` answer. -/
theorem delegation_guard_terminates_witness :
    qrcimporter_find_loader ⟨".so".data, false⟩
        ⟨fun _ => false, fun _ => false⟩ none ⟨":/".data, []⟩
        (fun q => q) 2 false "a.b".data =
      some (.delegated .noLoader) ∧
    (qrcimporter_find_loader ⟨".so".data, false⟩
        ⟨fun _ => false, fun _ => false⟩ none ⟨":/".data, []⟩
        (fun q => q) 2 false "a.b".data).isSome = true ∧
    FLResult.isDelegated .noLoader = false ∧
    mfsimporter_find_loader ⟨fun _ => false, fun _ => false⟩ ⟨"/app".data⟩
        (fun q => q) 2 false "a.b".data =
      some (.delegated .noLoader) ∧
    (mfsimporter_find_loader ⟨fun _ => false, fun _ => false⟩ ⟨"/app".data⟩
        (fun q => q) 2 false "a.b".data).isSome = true ∧
    FLResult.isDelegated .noLoader = false :=
  ⟨by decide,
    (delegation_guard_terminates ⟨".so".data, false⟩
      ⟨fun _ => false, fun _ => false⟩ none ⟨":/".data, []⟩ ⟨"/app".data⟩
      (fun q => q) "a.b".data).1.1,
    (delegation_guard_terminates ⟨".so".data, false⟩
      ⟨fun _ => false, fun _ => false⟩ none ⟨":/".data, []⟩ ⟨"/app".data⟩
      (fun q => q) "a.b".data).1.2 .noLoader (by decide),
    by decide,
    (delegation_guard_terminates ⟨".so".data, false⟩
      ⟨fun _ => false, fun _ => false⟩ none ⟨":/".data, []⟩ ⟨"/app".data⟩
      (fun q => q) "a.b".data).2.1,
    (delegation_guard_terminates ⟨".so".data, false⟩
      ⟨fun _ => false, fun _ => false⟩ none ⟨":/".data, []⟩ ⟨"/app".data⟩
      (fun q => q) "a.b".data).2.2 .noLoader (by decide)⟩

/-- Claim C3: when the FQMN's parent-component sequence differs from the
importer's stored path components, the qrc `find_module` returns
`ModuleNotFound` immediately, performing no backing-store probe at all
(the instrumented probe trace is empty). -/
theorem scope_mismatch_no_probe (plat : Platform) (fs : FS)
    (ed : Option Str) (self : QrcImporter) (fqmn : Str)
    (h : self.path_parts ≠ (splitOnChar '.' fqmn).dropLast) :
    find_moduleT plat fs ed self fqmn = (⟨.ModuleNotFound, [], []⟩, []) := by
  simp [find_moduleT, h]

/-- Witness for C3: an importer scoped to `pkg/sub` rejects
`pkg.other.mod` with no probe even over a backing store that answers every
probe positively. -/
theorem scope_mismatch_no_probe_witness :
    ((⟨":/pkg/sub/".data, ["pkg".data, "sub".data]⟩ : QrcImporter).path_parts ≠
      (splitOnChar '.' "pkg.other.mod".data).dropLast) ∧
    find_moduleT ⟨".so".data, true⟩ ⟨fun _ => true, fun _ => true⟩
      (some "/app".data) ⟨":/pkg/sub/".data, ["pkg".data, "sub".data]⟩
      "pkg.other.mod".data = (⟨.ModuleNotFound, [], []⟩, []) :=
  ⟨by decide,
    scope_mismatch_no_probe ⟨".so".data, true⟩ ⟨fun _ => true, fun _ => true⟩
      (some "/app".data) ⟨":/pkg/sub/".data, ["pkg".data, "sub".data]⟩
      "pkg.other.mod".data (by decide)⟩

/-- A Boolean probe that answered `false` does not satisfy an `if`
condition requiring `true`. -/
theorem ne_true_of_false {b : Bool} (h : b = false) : ¬(b = true) := by
  simp [h]

/-- Claim C4: on Darwin (the platform with a plugins/frameworks layout),
once the module and package probes have failed, the adjacent-extension
probe tries `../PlugIns/`, then `../Frameworks/`, then the executable
directory itself, and `find_module` returns
`ModuleIsAdjacentExtensionModule` with the first of those candidates that
is a file — so a file in the plugins subdirectory beats an identically
named file next to the executable. -/
theorem adjacent_probe_order (plat : Platform) (fs : FS) (d : Str)
    (self : QrcImporter) (fqmn : Str)
    (hdar : plat.isDarwin = true)
    (hscope : self.path_parts = (splitOnChar '.' fqmn).dropLast)
    (hpyo : fs.isFile (self.path ++ lastPart (splitOnChar '.' fqmn) ++
      ".pyo".data) = false)
    (hinit : fs.isFile (self.path ++ lastPart (splitOnChar '.' fqmn) ++
      "/__init__.pyo".data) = false)
    (hsome : fs.isFile (dirFilePath d ("../PlugIns/".data ++
        (fqmn ++ plat.extSuffix))) = true ∨
      fs.isFile (dirFilePath d ("../Frameworks/".data ++
        (fqmn ++ plat.extSuffix))) = true ∨
      fs.isFile (dirFilePath d (fqmn ++ plat.extSuffix)) = true) :
    find_module plat fs (some d) self fqmn =
      ⟨.ModuleIsAdjacentExtensionModule,
        self.path ++ lastPart (splitOnChar '.' fqmn),
        if fs.isFile (dirFilePath d ("../PlugIns/".data ++
            (fqmn ++ plat.extSuffix))) then
          dirFilePath d ("../PlugIns/".data ++ (fqmn ++ plat.extSuffix))
        else if fs.isFile (dirFilePath d ("../Frameworks/".data ++
            (fqmn ++ plat.extSuffix))) then
          dirFilePath d ("../Frameworks/".data ++ (fqmn ++ plat.extSuffix))
        else dirFilePath d (fqmn ++ plat.extSuffix)⟩ := by
  simp only [find_module, adjacentOf, find_adjacent]
  rw [if_neg (show ¬(self.path_parts ≠ (splitOnChar '.' fqmn).dropLast) from
    fun hcon => hcon hscope)]
  rw [if_neg (ne_true_of_false hpyo)]
  rw [if_neg (ne_true_of_false hinit)]
  rw [if_pos hdar]
  cases h1 : fs.isFile (dirFilePath d ("../PlugIns/".data ++
      (fqmn ++ plat.extSuffix)))
  · cases h2 : fs.isFile (dirFilePath d ("../Frameworks/".data ++
        (fqmn ++ plat.extSuffix)))
    · cases h3 : fs.isFile (dirFilePath d (fqmn ++ plat.extSuffix))
      · rcases hsome with h | h | h
        · exact absurd h (ne_true_of_false h1)
        · exact absurd h (ne_true_of_false h2)
        · exact absurd h (ne_true_of_false h3)
      · rfl
    · rfl
  · rfl

/-- Witness for C4: with `m.so` present both in `../PlugIns/` and next to
the executable, the plugins copy is chosen. -/
theorem adjacent_probe_order_witness :
    ((⟨":/".data, []⟩ : QrcImporter).path_parts =
      (splitOnChar '.' "m".data).dropLast) ∧
    find_module ⟨".so".data, true⟩
      ⟨fun s => s == "/app/../PlugIns/m.so".data || s == "/app/m.so".data,
        fun _ => false⟩ (some "/app".data) ⟨":/".data, []⟩ "m".data =
      ⟨.ModuleIsAdjacentExtensionModule, ":/m".data,
        "/app/../PlugIns/m.so".data⟩ :=
  ⟨by decide,
    (adjacent_probe_order ⟨".so".data, true⟩
      ⟨fun s => s == "/app/../PlugIns/m.so".data || s == "/app/m.so".data,
        fun _ => false⟩ "/app".data ⟨":/".data, []⟩ "m".data
      (by decide) (by decide) (by decide) (by decide)
      (Or.inl (by decide))).trans (by decide)⟩

/-- Claim C5: when the module file, the package `__init__` file and every
adjacent-extension candidate are all absent but the bare directory
`<root><leaf>` exists, the qrc `find_module` returns `ModuleIsNamespace`
with logical path equal to that directory; likewise the mfs `find_module`
(which has no adjacent-extension probe). -/
theorem bare_directory_is_namespace (plat : Platform) (fs : FS)
    (ed : Option Str) (self : QrcImporter) (mself : MfsImporter)
    (fqmn : Str) :
    (self.path_parts = (splitOnChar '.' fqmn).dropLast →
      fs.isFile (self.path ++ lastPart (splitOnChar '.' fqmn) ++
        ".pyo".data) = false →
      fs.isFile (self.path ++ lastPart (splitOnChar '.' fqmn) ++
        "/__init__.pyo".data) = false →
      adjacentOf plat fs ed (fqmn ++ plat.extSuffix) = none →
      fs.isDir (self.path ++ lastPart (splitOnChar '.' fqmn)) = true →
      find_module plat fs ed self fqmn =
        ⟨.ModuleIsNamespace, self.path ++ lastPart (splitOnChar '.' fqmn),
          self.path ++ lastPart (splitOnChar '.' fqmn)⟩) ∧
    (fs.isFile (mself.path ++ "/".data ++ lastPart (splitOnChar '.' fqmn) ++
        ".pyf".data) = false →
      fs.isFile (mself.path ++ "/".data ++ lastPart (splitOnChar '.' fqmn) ++
        "/__init__.pyf".data) = false →
      fs.isDir (mself.path ++ "/".data ++
        lastPart (splitOnChar '.' fqmn)) = true →
      mfs_find_module fs mself fqmn =
        ⟨.ModuleIsNamespace,
          mself.path ++ "/".data ++ lastPart (splitOnChar '.' fqmn),
          mself.path ++ "/".data ++ lastPart (splitOnChar '.' fqmn)⟩) := by
  constructor
  · intro hscope hpyo hinit hadj hdir
    simp at hpyo hinit hdir
    simp [find_module, hscope, hpyo, hinit, hadj, hdir]
  · intro hpyf hinit hdir
    simp at hpyf hinit hdir
    simp [mfs_find_module, hpyf, hinit, hdir]

/-- Witness for C5: a store holding only the bare directories `:/pkg` and
`/app/pkg` resolves `pkg` to a namespace in both importers. -/
theorem bare_directory_is_namespace_witness :
    ((⟨":/".data, []⟩ : QrcImporter).path_parts =
      (splitOnChar '.' "pkg".data).dropLast) ∧
    find_module ⟨".so".data, false⟩
      ⟨fun _ => false, fun s => s == ":/pkg".data⟩ none ⟨":/".data, []⟩
      "pkg".data =
      ⟨.ModuleIsNamespace, ":/pkg".data, ":/pkg".data⟩ ∧
    mfs_find_module ⟨fun _ => false, fun s => s == "/app/pkg".data⟩
      ⟨"/app".data⟩ "pkg".data =
      ⟨.ModuleIsNamespace, "/app/pkg".data, "/app/pkg".data⟩ :=
  ⟨by decide,
    ((bare_directory_is_namespace ⟨".so".data, false⟩
      ⟨fun _ => false, fun s => s == ":/pkg".data⟩ none ⟨":/".data, []⟩
      ⟨"/app".data⟩ "pkg".data).1 (by decide) (by decide) (by decide)
      (by decide) (by decide)).trans (by decide),
    ((bare_directory_is_namespace ⟨".so".data, false⟩
      ⟨fun _ => false, fun s => s == "/app/pkg".data⟩ none ⟨":/".data, []⟩
      ⟨"/app".data⟩ "pkg".data).2 (by decide) (by decide)
      (by decide)).trans (by decide)⟩

/-- Claim C6: loading a resolution of kind `Package` installs, before the
package code runs, the one-element duplicate-free search-path list
`[pathname]`; loading a kind `Module` installs no search-path list.  This
holds for the qrc and the mfs loader. -/
theorem package_path_singleton (plat : Platform) (fs : FS) (ed : Option Str)
    (self : QrcImporter) (mself : MfsImporter) (fqmn : Str) :
    ((find_module plat fs ed self fqmn).type = .ModuleIsPackage →
      qrcimporter_load_module plat fs ed self fqmn =
        .executed (some [(find_module plat fs ed self fqmn).pathname])
          (find_module plat fs ed self fqmn).filename ∧
      [(find_module plat fs ed self fqmn).pathname].Nodup) ∧
    ((find_module plat fs ed self fqmn).type = .ModuleIsModule →
      qrcimporter_load_module plat fs ed self fqmn =
        .executed none (find_module plat fs ed self fqmn).filename) ∧
    ((mfs_find_module fs mself fqmn).type = .ModuleIsPackage →
      mfsimporter_load_module fs mself fqmn =
        .executed (some [(mfs_find_module fs mself fqmn).pathname])
          (mfs_find_module fs mself fqmn).filename ∧
      [(mfs_find_module fs mself fqmn).pathname].Nodup) ∧
    ((mfs_find_module fs mself fqmn).type = .ModuleIsModule →
      mfsimporter_load_module fs mself fqmn =
        .executed none (mfs_find_module fs mself fqmn).filename) := by
  refine ⟨fun h => ⟨?_, ?_⟩, fun h => ?_, fun h => ⟨?_, ?_⟩, fun h => ?_⟩ <;>
    simp [qrcimporter_load_module, mfsimporter_load_module, h]

/-- Witness for C6: a store holding `:/pkg/__init__.pyo` (and the mfs
counterpart) loads `pkg` with `__path__ = [pathname]`. -/
theorem package_path_singleton_witness :
    ((find_module ⟨".so".data, false⟩
      ⟨fun s => s == ":/pkg/__init__.pyo".data, fun _ => false⟩ none
      ⟨":/".data, []⟩ "pkg".data).type = .ModuleIsPackage) ∧
    (qrcimporter_load_module ⟨".so".data, false⟩
      ⟨fun s => s == ":/pkg/__init__.pyo".data, fun _ => false⟩ none
      ⟨":/".data, []⟩ "pkg".data =
      .executed (some [(find_module ⟨".so".data, false⟩
          ⟨fun s => s == ":/pkg/__init__.pyo".data, fun _ => false⟩ none
          ⟨":/".data, []⟩ "pkg".data).pathname])
        (find_module ⟨".so".data, false⟩
          ⟨fun s => s == ":/pkg/__init__.pyo".data, fun _ => false⟩ none
          ⟨":/".data, []⟩ "pkg".data).filename) ∧
    (mfsimporter_load_module
      ⟨fun s => s == "/app/pkg/__init__.pyf".data, fun _ => false⟩
      ⟨"/app".data⟩ "pkg".data =
      .executed (some [(mfs_find_module
          ⟨fun s => s == "/app/pkg/__init__.pyf".data, fun _ => false⟩
          ⟨"/app".data⟩ "pkg".data).pathname])
        (mfs_find_module
          ⟨fun s => s == "/app/pkg/__init__.pyf".data, fun _ => false⟩
          ⟨"/app".data⟩ "pkg".data).filename) :=
  ⟨by decide,
    ((package_path_singleton ⟨".so".data, false⟩
      ⟨fun s => s == ":/pkg/__init__.pyo".data, fun _ => false⟩ none
      ⟨":/".data, []⟩ ⟨"/app".data⟩ "pkg".data).1 (by decide)).1,
    ((package_path_singleton ⟨".so".data, false⟩
      ⟨fun s => s == "/app/pkg/__init__.pyf".data, fun _ => false⟩ none
      ⟨":/".data, []⟩ ⟨"/app".data⟩ "pkg".data).2.2.1 (by decide)).1⟩

/-- C7 counterexample: on a concrete open handle over two bytes, closing it
and then reading does not fail with the invalid-state error the claim
demands: it returns an ordinary empty bytes result (the read path performs
no open-state check, and a closed `QFile` reads as empty). -/
theorem read_after_close_counterexample :
    (qrcresource_read (qrcresource_close ⟨true, [104, 105], 0⟩) (-1)).1 =
      ReadResult.ok [] ∧
    (qrcresource_read (qrcresource_close ⟨true, [104, 105], 0⟩) (-1)).1 ≠
      ReadResult.error RErr.invalidState := by
  decide

/-- Claim C7 as amended: `read(n)` on an open handle positioned at
end-of-data returns an empty result rather than an error, and reading
after `close()` likewise returns an empty result rather than an
`InvalidState` error. -/
theorem read_eof_and_after_close_empty (r : QrcResource) (n : Int) :
    (r.isOpen = true → r.data.length ≤ r.pos →
      (qrcresource_read r n).1 = ReadResult.ok []) ∧
    (qrcresource_read (qrcresource_close r) n).1 = ReadResult.ok [] := by
  constructor
  · intro ho he
    have hdrop : r.data.drop r.pos = [] := List.drop_eq_nil_of_le he
    by_cases hn : n < 0 <;>
      simp [qrcresource_read, qfile_readAll, qfile_read, ho, hdrop, hn]
  · have hclosed : (qrcresource_close r).isOpen = false := by
      by_cases ho : r.isOpen <;> simp [qrcresource_close, ho]
    by_cases hn : n < 0 <;>
      simp [qrcresource_read, qfile_readAll, qfile_read, hclosed, hn]

/-- Witness for the amended C7 at a concrete one-byte handle positioned at
its end. -/
theorem read_eof_and_after_close_empty_witness :
    ((⟨true, [104], 1⟩ : QrcResource).isOpen = true) ∧
    ((⟨true, [104], 1⟩ : QrcResource).data.length ≤
      (⟨true, [104], 1⟩ : QrcResource).pos) ∧
    (qrcresource_read ⟨true, [104], 1⟩ 5).1 = ReadResult.ok [] ∧
    (qrcresource_read (qrcresource_close ⟨true, [104], 1⟩) 5).1 =
      ReadResult.ok [] :=
  ⟨by decide, by decide,
    (read_eof_and_after_close_empty ⟨true, [104], 1⟩ 5).1 (by decide)
      (by decide),
    (read_eof_and_after_close_empty ⟨true, [104], 1⟩ 5).2⟩

/-- Claim C8: resolution is deterministic and side-effect-free for every
importer: the state-passing forms of both `find_module`s hand the importer
back unchanged and compute exactly the pure result, and any importer with
equal stored state resolves every FQMN to the same result, for the qrc
resolver and the mfs resolver alike. -/
theorem resolve_pure_deterministic (plat : Platform) (fs : FS)
    (ed : Option Str) (self : QrcImporter) (mself : MfsImporter)
    (fqmn : Str) :
    qrc_resolve_st plat fs ed self fqmn =
      (find_module plat fs ed self fqmn, self) ∧
    (∀ other : QrcImporter, other.path = self.path →
      other.path_parts = self.path_parts →
      find_module plat fs ed other fqmn =
        find_module plat fs ed self fqmn) ∧
    mfs_resolve_st fs mself fqmn =
      (mfs_find_module fs mself fqmn, mself) ∧
    (∀ mother : MfsImporter, mother.path = mself.path →
      mfs_find_module fs mother fqmn = mfs_find_module fs mself fqmn) := by
  refine ⟨?_, ?_, ?_, ?_⟩
  · simp only [qrc_resolve_st, find_module]
    by_cases hA : self.path_parts ≠ (splitOnChar '.' fqmn).dropLast
    · rw [if_pos hA, if_pos hA]
    · rw [if_neg hA, if_neg hA]
      cases hB : fs.isFile (self.path ++ lastPart (splitOnChar '.' fqmn) ++
          ".pyo".data)
      · cases hC : fs.isFile (self.path ++ lastPart (splitOnChar '.' fqmn) ++
            "/__init__.pyo".data)
        · cases hD : adjacentOf plat fs ed (fqmn ++ plat.extSuffix)
          · cases hE : fs.isDir (self.path ++ lastPart (splitOnChar '.' fqmn))
            · rfl
            · rfl
          · rfl
        · rfl
      · rfl
  · intro other h1 h2
    have hoth : other = self := by
      cases self
      cases other
      simp_all
    rw [hoth]
  · simp only [mfs_resolve_st, mfs_find_module]
    cases hB : fs.isFile (mself.path ++ "/".data ++
        lastPart (splitOnChar '.' fqmn) ++ ".pyf".data)
    · cases hC : fs.isFile (mself.path ++ "/".data ++
          lastPart (splitOnChar '.' fqmn) ++ "/__init__.pyf".data)
      · cases hD : fs.isDir (mself.path ++ "/".data ++
            lastPart (splitOnChar '.' fqmn))
        · rfl
        · rfl
      · rfl
    · rfl
  · intro mother h1
    have hoth : mother = mself := by
      cases mself
      cases mother
      simp_all
    rw [hoth]

/-- Witness for C8 at a concrete importer and an empty store. -/
theorem resolve_pure_deterministic_witness :
    ((⟨":/".data, []⟩ : QrcImporter).path =
      (⟨":/".data, []⟩ : QrcImporter).path) ∧
    ((⟨"/app".data⟩ : MfsImporter).path =
      (⟨"/app".data⟩ : MfsImporter).path) ∧
    qrc_resolve_st ⟨".so".data, false⟩ ⟨fun _ => false, fun _ => false⟩ none
      ⟨":/".data, []⟩ "m".data =
      (find_module ⟨".so".data, false⟩ ⟨fun _ => false, fun _ => false⟩ none
        ⟨":/".data, []⟩ "m".data, ⟨":/".data, []⟩) ∧
    find_module ⟨".so".data, false⟩ ⟨fun _ => false, fun _ => false⟩ none
      ⟨":/".data, []⟩ "m".data =
      find_module ⟨".so".data, false⟩ ⟨fun _ => false, fun _ => false⟩ none
        ⟨":/".data, []⟩ "m".data ∧
    mfs_resolve_st ⟨fun _ => false, fun _ => false⟩ ⟨"/app".data⟩ "m".data =
      (mfs_find_module ⟨fun _ => false, fun _ => false⟩ ⟨"/app".data⟩
        "m".data, ⟨"/app".data⟩) ∧
    mfs_find_module ⟨fun _ => false, fun _ => false⟩ ⟨"/app".data⟩
      "m".data =
      mfs_find_module ⟨fun _ => false, fun _ => false⟩ ⟨"/app".data⟩
        "m".data :=
  ⟨rfl, rfl,
    (resolve_pure_deterministic ⟨".so".data, false⟩
      ⟨fun _ => false, fun _ => false⟩ none ⟨":/".data, []⟩ ⟨"/app".data⟩
      "m".data).1,
    (resolve_pure_deterministic ⟨".so".data, false⟩
      ⟨fun _ => false, fun _ => false⟩ none ⟨":/".data, []⟩ ⟨"/app".data⟩
      "m".data).2.1 ⟨":/".data, []⟩ rfl rfl,
    (resolve_pure_deterministic ⟨".so".data, false⟩
      ⟨fun _ => false, fun _ => false⟩ none ⟨":/".data, []⟩ ⟨"/app".data⟩
      "m".data).2.2.1,
    (resolve_pure_deterministic ⟨".so".data, false⟩
      ⟨fun _ => false, fun _ => false⟩ none ⟨":/".data, []⟩ ⟨"/app".data⟩
      "m".data).2.2.2 ⟨"/app".data⟩ rfl⟩

/-- Claim C9: `resource_path` fails with a file-not-found error for every
name; there is no input for which it returns a filesystem path. -/
theorem resource_path_always_fails (arg : Str) :
    qrcreader_resource_path arg = PathResult.fileNotFoundError ∧
    ∀ p : Str, qrcreader_resource_path arg ≠ PathResult.ok p := by
  refine ⟨rfl, fun p h => ?_⟩
  simp [qrcreader_resource_path] at h

/-- Claim C10: the mfs `find_module` depends on the FQMN only through its
last dot-separated component: two FQMNs with the same leaf resolve
identically, whatever their parent components. -/
theorem mfs_resolve_ignores_parents (fs : FS) (self : MfsImporter)
    (q1 q2 : Str)
    (h : lastPart (splitOnChar '.' q1) = lastPart (splitOnChar '.' q2)) :
    mfs_find_module fs self q1 = mfs_find_module fs self q2 := by
  simp only [mfs_find_module, h]

/-- Witness for C10: `a.b.m` and `x.m` resolve identically over a store
holding `/app/m.pyf`. -/
theorem mfs_resolve_ignores_parents_witness :
    (lastPart (splitOnChar '.' "a.b.m".data) =
      lastPart (splitOnChar '.' "x.m".data)) ∧
    mfs_find_module ⟨fun s => s == "/app/m.pyf".data, fun _ => false⟩
      ⟨"/app".data⟩ "a.b.m".data =
      mfs_find_module ⟨fun s => s == "/app/m.pyf".data, fun _ => false⟩
        ⟨"/app".data⟩ "x.m".data :=
  ⟨by decide,
    mfs_resolve_ignores_parents
      ⟨fun s => s == "/app/m.pyf".data, fun _ => false⟩ ⟨"/app".data⟩
      "a.b.m".data "x.m".data (by decide)⟩

end PdyTools
